import Mathlib

/-!
Verification of the WCC forest-carbon pipeline (`my_functions/wcc.py`).

The four core functions are embedded shallowly:

* `tree_statistics` — row classification by DBH thresholds, species-proportional
  allocation with remainder distribution, class means, quadratic mean DBH and
  basal area.
* `calculate_tariff_numbers_and_volume` — tariff-number regression and stem
  volume with the DBH-indexed correction factor.
* `calculate_biomass` — stem/crown/root biomass decomposition.
* `calculate_carbon_and_co2_for_trees_and_saplings` — carbon / CO2 conversion
  with the height-indexed sapling lookup tables.

Modelling conventions:

* Numeric literals of the Python source are read as exact rationals (for the
  discrete parts: counts, means, table keys) or as real numbers (for the parts
  that use `sqrt`, `pi` and `**` with fractional exponents).
* Python `int(x)` is `pyInt` (truncation toward zero); Python `round(x)` and
  `round(x, 1)` are `pyRound0` / `pyRound1` (round-half-to-even, CPython's
  documented behaviour on the exact value of its argument).
* `round(np.sqrt(q), 1)` is computed exactly on rationals by `roundSqrtTenth`.
* Python dicts used as ordered association tables become `List (key × value)`;
  `d[k]` (which raises `KeyError` on a missing key) becomes an `Except`-valued
  lookup, `d.get(k, v)` becomes `(List.lookup k d).getD v`.
* Functions that can raise return `Except String _`.
* The three remainder-distribution `while` loops of `tree_statistics` are
  independent per class; each is `distributeLoop`, whose fuel is
  `remaining.toNat` — identical to the source loop, which runs only while
  `remaining > 0`. (On an empty species list with a positive remainder the
  source would raise `ZeroDivisionError`; theorems about the loop therefore
  assume a non-empty percentages mapping.)
-/

namespace WCC

/-- One inventory row: the columns `Type`, `Year`, `DBH` (cm), `top_height` (m)
read by `tree_statistics`. -/
structure InventoryRow where
  rowType : String
  year : ℤ
  DBH : ℚ
  top_height : ℚ
deriving DecidableEq

/-- Per-species integer counts, the values of the `species_distribution` dict. -/
structure SpeciesCounts where
  trees : ℤ
  saplings : ℤ
  largetrees : ℤ
deriving DecidableEq

/-- Python `int(q)`: truncation toward zero. -/
def pyInt (q : ℚ) : ℤ := if 0 ≤ q then ⌊q⌋ else ⌈q⌉

/-- Python `round(q)`: round to the nearest integer, ties to the even integer. -/
def pyRound0 (q : ℚ) : ℤ :=
  let f := ⌊q⌋
  if q - f < 1/2 then f
  else if 1/2 < q - f then f + 1
  else if f % 2 = 0 then f else f + 1

/-- Python `round(q, 1)`: round to the nearest tenth, ties to even. -/
def pyRound1 (q : ℚ) : ℚ := (pyRound0 (10 * q) : ℚ) / 10

/-- `round(sqrt(q), 1)` for `0 ≤ q : ℚ`, computed exactly.
`(s+1)/2` is `⌊10*sqrt q + 1/2⌋`; the conditional repairs the half-to-even
tie case `10*sqrt q = k - 1/2` (exactly when `400*q = (2k-1)^2` with `k` odd). -/
def roundSqrtTenth (q : ℚ) : ℚ :=
  let s := Nat.sqrt (Int.toNat ⌊400 * q⌋)
  let k := (s + 1) / 2
  let k2 : ℤ := if (((2 * (k : ℤ) - 1 : ℤ) : ℚ) ^ 2 = 400 * q ∧ k % 2 = 1) then (k : ℤ) - 1 else (k : ℤ)
  (k2 : ℚ) / 10

/-- `pandas` `.mean()` over a column, as exact rational arithmetic
(the empty-column case, `NaN` in pandas, is the junk value `0` here). -/
def listMean (l : List ℚ) : ℚ := l.sum / (l.length : ℚ)

/-- The rows with `Type == planting_mix`, `Year == year` and `DBH > 7`. -/
def filtered_df_trees (df : List InventoryRow) (planting_mix : String) (year : ℤ) :
    List InventoryRow :=
  df.filter fun r => r.rowType == planting_mix && r.year == year && decide ((7 : ℚ) < r.DBH)

/-- The rows with `Type == planting_mix`, `Year == year` and `DBH <= 7`. -/
def filtered_df_saplings (df : List InventoryRow) (planting_mix : String) (year : ℤ) :
    List InventoryRow :=
  df.filter fun r => r.rowType == planting_mix && r.year == year && decide (r.DBH ≤ (7 : ℚ))

/-- The rows with `Type == planting_mix`, `Year == year` and `DBH > 50`. -/
def filtered_df_largetrees (df : List InventoryRow) (planting_mix : String) (year : ℤ) :
    List InventoryRow :=
  df.filter fun r => r.rowType == planting_mix && r.year == year && decide ((50 : ℚ) < r.DBH)

/-- Add one unit at position `i` (the body of one iteration of a
remainder-distribution `while` loop). -/
def bump : List ℤ → ℕ → List ℤ
  | [], _ => []
  | a :: t, 0 => (a + 1) :: t
  | a :: t, i + 1 => a :: bump t i

/-- One remainder-distribution `while` loop: starting at cursor `idx`, hand out
`r` units one at a time, cycling through the list (`species_list[index % len]`). -/
def distributeLoop (counts : List ℤ) : ℕ → ℕ → List ℤ
  | 0, _ => counts
  | r + 1, idx => distributeLoop (bump counts (idx % counts.length)) r (idx + 1)

/-- The allocation of a class count `n` over the percentages mapping: initial
floor allocation `int(n * percentage)` per species in mapping order, then the
remainder `n - sum` distributed round-robin while it is positive. -/
def allocateClass (percentages : List (String × ℚ)) (n : ℕ) : List ℤ :=
  let init := percentages.map fun sp => pyInt ((n : ℚ) * sp.2)
  distributeLoop init ((n : ℤ) - init.sum).toNat 0

/-- Zip the species names with the three per-class allocations into the
`species_distribution` table. -/
def buildDist : List (String × ℚ) → List ℤ → List ℤ → List ℤ →
    List (String × SpeciesCounts)
  | sp :: ps, a :: ta, b :: tb, c :: tc => (sp.1, ⟨a, b, c⟩) :: buildDist ps ta tb tc
  | _, _, _, _ => []

/-- The mean of the squared DBH over the tree class (`squared_dbh.mean()`). -/
def mean_squared_dbh (df : List InventoryRow) (planting_mix : String) (year : ℤ) : ℚ :=
  listMean ((filtered_df_trees df planting_mix year).map fun r => r.DBH ^ 2)

/-- The result dictionary of `tree_statistics`. -/
structure TreeStats where
  number_of_trees : ℕ
  number_of_saplings : ℕ
  number_of_largetrees : ℕ
  mean_tree_height : ℚ
  mean_dbh_trees : ℚ
  mean_sapling_height : ℚ
  mean_dbh_saplings : ℚ
  mean_largetree_height : Option ℚ
  mean_dbh_largetrees : Option ℚ
  quadratic_mean_dbh : ℚ
  mean_basal_area : ℝ
  species_distribution : List (String × SpeciesCounts)

/-- `tree_statistics(df, percentages, planting_mix, year)`. -/
noncomputable def tree_statistics (df : List InventoryRow)
    (percentages : List (String × ℚ)) (planting_mix : String) (year : ℤ) : TreeStats :=
  let ftrees := filtered_df_trees df planting_mix year
  let fsaplings := filtered_df_saplings df planting_mix year
  let flarge := filtered_df_largetrees df planting_mix year
  let number_of_trees := ftrees.length
  let number_of_saplings := fsaplings.length
  let number_of_largetrees := flarge.length
  let qmd := roundSqrtTenth (mean_squared_dbh df planting_mix year)
  { number_of_trees := number_of_trees
    number_of_saplings := number_of_saplings
    number_of_largetrees := number_of_largetrees
    mean_tree_height := listMean (ftrees.map fun r => r.top_height)
    mean_dbh_trees := listMean (ftrees.map fun r => r.DBH)
    mean_sapling_height := listMean (fsaplings.map fun r => r.top_height)
    mean_dbh_saplings := listMean (fsaplings.map fun r => r.DBH)
    mean_largetree_height :=
      if 0 < number_of_largetrees then some (listMean (flarge.map fun r => r.top_height)) else none
    mean_dbh_largetrees :=
      if 0 < number_of_largetrees then some (listMean (flarge.map fun r => r.DBH)) else none
    quadratic_mean_dbh := qmd
    mean_basal_area := Real.pi * ((qmd : ℝ) / 200) ^ 2
    species_distribution :=
      buildDist percentages (allocateClass percentages number_of_trees)
        (allocateClass percentages number_of_saplings)
        (allocateClass percentages number_of_largetrees) }

/-! ### Downstream pipeline: volume, biomass, carbon

`calculate_tariff_numbers_and_volume`, `calculate_biomass` and
`calculate_carbon_and_co2_for_trees_and_saplings` read a handful of keys from
the `tree_stats` dict; `StandStats` holds exactly those keys.  Their arithmetic
uses `math.floor`, `**` with fractional exponents and products of decimal
constants, so it is embedded over `ℝ`. -/

/-- The keys of the `tree_stats` dict read by the downstream functions. -/
structure StandStats where
  mean_tree_height : ℝ
  quadratic_mean_dbh : ℝ
  mean_basal_area : ℝ
  mean_dbh_trees : ℝ
  species_distribution : List (String × SpeciesCounts)

/-- The result dict of `calculate_tariff_numbers_and_volume`. -/
structure TariffResult where
  tariff_number : ℤ
  mean_tree_volume : ℝ
  total_stem_volume : ℝ

/-- The result dict of `calculate_biomass`. -/
structure BiomassResult where
  total_stem_biomass : ℝ
  total_crown_biomass : ℝ
  total_root_biomass : ℝ
  total_AGB : ℝ
  total_biomass : ℝ

/-- The result dict of `calculate_carbon_and_co2_for_trees_and_saplings`. -/
structure CarbonResult where
  total_carbon_trees : ℝ
  total_co2_trees : ℝ
  total_carbon_saplings : ℝ
  total_co2_saplings : ℝ
  total_carbon : ℝ
  total_co2 : ℝ

noncomputable section

/-- Species-specific constants for broadleaf species (4 coefficients). -/
def broadleaf_constants : List (String × ℝ × ℝ × ℝ × ℝ) :=
  [("oak", (5.88300, 2.01230, -0.0054780, -0.0057397)),
   ("beech", (7.48490, 1.92620, -0.0037881, -0.0082745)),
   ("sycamore", (9.76130, 1.58670, -0.0569660, -0.0033867)),
   ("ash", (9.16050, 2.02560, -0.0668420, -0.0044172)),
   ("birch", (5.62370, 2.23800, 0.0871700, -0.0332620)),
   ("elm", (6.28870, 1.69950, 0.0285120, -0.0069294)),
   ("poplar", (10.90625, 1.05327, 0.0, 0.0))]

/-- Species-specific constants for conifer species (3 coefficients). -/
def conifer_constants : List (String × ℝ × ℝ × ℝ) :=
  [("Scots pine", (9.817387, 1.177486, -0.114174)),
   ("Corsican pine", (5.070842, 1.754053, -0.193834)),
   ("lodgepole pine", (8.855292, 1.951643, -0.689619)),
   ("Sitka spruce", (8.292030, 1.771173, -0.416509)),
   ("Norway spruce", (9.939311, 1.985697, -0.650625)),
   ("European larch", (5.562167, 1.908473, -0.426567)),
   ("Japanese larch", (8.478127, 1.788768, -0.449816)),
   ("Douglas fir", (10.397480, 1.477313, -0.325653)),
   ("western hemlock", (8.762511, 1.959230, -0.586275)),
   ("western red cedar", (10.637312, 1.735383, -0.630551)),
   ("grand fir", (6.565630, 2.043490, -0.591550)),
   ("noble fir", (7.028548, 1.930016, -0.373808))]

/-- The DBH-indexed volume correction factor: the `if mean_dbh_trees >= 33 ...`
`elif` chain, read top to bottom exactly as in the source. -/
def multiplication_factor (mean_dbh_trees : ℝ) : ℝ :=
  if 33 ≤ mean_dbh_trees then 1.00
  else if 32 ≤ mean_dbh_trees then 1.01
  else if 31 ≤ mean_dbh_trees then 1.01
  else if 30 ≤ mean_dbh_trees then 1.01
  else if 29 ≤ mean_dbh_trees then 1.01
  else if 28 ≤ mean_dbh_trees then 1.01
  else if 27 ≤ mean_dbh_trees then 1.01
  else if 26 ≤ mean_dbh_trees then 1.01
  else if 25 ≤ mean_dbh_trees then 1.01
  else if 24 ≤ mean_dbh_trees then 1.01
  else if 23 ≤ mean_dbh_trees then 1.01
  else if 22 ≤ mean_dbh_trees then 1.01
  else if 21 ≤ mean_dbh_trees then 1.02
  else if 20 ≤ mean_dbh_trees then 1.02
  else if 19 ≤ mean_dbh_trees then 1.02
  else if 18 ≤ mean_dbh_trees then 1.02
  else if 17 ≤ mean_dbh_trees then 1.03
  else if 16 ≤ mean_dbh_trees then 1.03
  else if 15 ≤ mean_dbh_trees then 1.04
  else if 14 ≤ mean_dbh_trees then 1.05
  else if 13 ≤ mean_dbh_trees then 1.06
  else if 12 ≤ mean_dbh_trees then 1.07
  else if 11 ≤ mean_dbh_trees then 1.09
  else if 10 ≤ mean_dbh_trees then 1.12
  else if 9 ≤ mean_dbh_trees then 1.15
  else if 8 ≤ mean_dbh_trees then 1.19
  else 1.30

/-- `calculate_tariff_numbers_and_volume(tree_stats, species)`.
The species is looked up first in `conifer_constants`, then in
`broadleaf_constants`; a species in neither raises `ValueError`.  The Python
subscript `species_distribution[species]` raises `KeyError` when the species is
missing from the distribution; both raises are `Except.error` here. -/
def calculate_tariff_numbers_and_volume (tree_stats : StandStats) (species : String) :
    Except String TariffResult :=
  let mean_tree_height := tree_stats.mean_tree_height
  let mean_basal_area := tree_stats.mean_basal_area
  let mean_dbh_trees := tree_stats.mean_dbh_trees
  let raw : Except String ℝ :=
    match conifer_constants.lookup species with
    | some (a1, a2, a3) => .ok (a1 + (a2 * mean_tree_height) + (a3 * mean_dbh_trees))
    | none =>
      match broadleaf_constants.lookup species with
      | some (a1, a2, a3, a4) =>
        .ok (a1 + (a2 * mean_tree_height) + (a3 * mean_dbh_trees) +
             (a4 * mean_dbh_trees * mean_tree_height))
      | none => .error "ValueError: species not found in either conifer or broadleaf constants"
  match raw with
  | .error e => .error e
  | .ok t =>
    let tariff_number : ℤ := ⌊t⌋
    let a2 : ℝ := 0.315049301 * ((tariff_number : ℝ) - 0.138763302)
    let a1 : ℝ := (0.0360541 * (tariff_number : ℝ)) - (a2 * 0.118288)
    let mean_tree_volume := a1 + (a2 * mean_basal_area)
    match tree_stats.species_distribution.lookup species with
    | none => .error "KeyError: species missing from species_distribution"
    | some cnt =>
      let total_volume := mean_tree_volume * (cnt.trees : ℝ)
      .ok { tariff_number := tariff_number
            mean_tree_volume := mean_tree_volume
            total_stem_volume := total_volume * multiplication_factor mean_dbh_trees }

/-- Table 5.2.1: nominal specific gravity. -/
def nominal_specific_gravity : List (String × ℝ) :=
  [("Scots pine", 0.42), ("Corsican pine", 0.40), ("lodgepole pine", 0.39),
   ("maritime pine", 0.41), ("Weymouth pine", 0.29), ("Sitka spruce", 0.33),
   ("Norway spruce", 0.33), ("Omorika spruce", 0.33), ("European larch", 0.45),
   ("Japanese larch", 0.41), ("hybrid larch", 0.38), ("Douglas fir", 0.41),
   ("western hemlock", 0.36), ("western red cedar", 0.31), ("Lawson cypress", 0.33),
   ("Leyland cypress", 0.38), ("grand fir", 0.30), ("noble fir", 0.31),
   ("silver fir", 0.38), ("oak", 0.56), ("red oak", 0.57), ("beech", 0.55),
   ("sycamore", 0.49), ("ash", 0.53), ("birch", 0.53), ("poplar", 0.35),
   ("sweet chestnut", 0.44), ("horse chestnut", 0.44), ("alder", 0.42),
   ("lime", 0.44), ("elm", 0.43), ("wych elm", 0.50), ("wild cherry", 0.50),
   ("hornbeam", 0.57)]

/-- Table 5.2.2: crown biomass coefficients for 7 cm ≤ DBH ≤ 50 cm.
Note the key `"Beech"` is capitalised, unlike the tariff and density tables. -/
def crown_biomass_coefficients_7_to_50 : List (String × ℝ × ℝ) :=
  [("European larch", (0.0000438717, 2.0291)),
   ("Corsican pine", (0.0000122645, 2.4767)),
   ("lodgepole pine", (0.0000176287, 2.4767)),
   ("Scots pine", (0.0000161411, 2.4767)),
   ("firs, spruces, cedars, hemlocks", (0.0000144620, 2.4767)),
   ("Douglas fir", (0.0000168602, 2.4767)),
   ("Beech", (0.0000188154, 2.4767)),
   ("oak", (0.0000168513, 2.4767))]

/-- Table 5.2.3: crown biomass coefficients for DBH > 50 cm (key `"Beech"`). -/
def crown_biomass_coefficients_above_50 : List (String × ℝ × ℝ) :=
  [("European larch", (-0.129046967, 0.005039011)),
   ("Corsican pine", (-0.299529453, 0.009948982)),
   ("lodgepole pine", (-0.430536496, 0.014300429)),
   ("Scots pine", (-0.394205622, 0.013093685)),
   ("firs, spruces, cedars, hemlocks", (-0.353197843, 0.011731597)),
   ("Douglas fir", (-0.411767824, 0.013677021)),
   ("Beech", (-0.459518648, 0.015263082)),
   ("oak", (-0.411550464, 0.013669801))]

/-- Table 5.2.4: root biomass coefficient for DBH ≤ 30 cm. -/
def root_biomass_coefficients_8 : List (String × ℝ) :=
  [("western red cedar", 0.000010722), ("noble fir", 0.000010722),
   ("Corsican pine", 0.000010722), ("Norway spruce", 0.000011883),
   ("grand fir", 0.000015404), ("Scots pine", 0.000015404),
   ("western hemlock", 0.000015404), ("Douglas fir", 0.000017326),
   ("European larch", 0.000017326), ("lodgepole pine", 0.000017326),
   ("Sitka spruce", 0.000020454), ("red alder", 0.000022700)]

/-- Table 5.2.5: root biomass coefficients for DBH > 30 cm. -/
def root_biomass_coefficients_9 : List (String × ℝ × ℝ) :=
  [("western red cedar", (-0.082602857, 0.004515233)),
   ("noble fir", (-0.082602857, 0.004515233)),
   ("Corsican pine", (-0.082602857, 0.004515233)),
   ("Norway spruce", (-0.091547262, 0.005004152)),
   ("grand fir", (-0.118673233, 0.006486910)),
   ("Scots pine", (-0.118673233, 0.006486910)),
   ("western hemlock", (-0.118673233, 0.006486910)),
   ("Douglas fir", (-0.133480423, 0.007296300)),
   ("European larch", (-0.133480423, 0.007296300)),
   ("lodgepole pine", (-0.133480423, 0.007296300)),
   ("Sitka spruce", (-0.157578701, 0.008613559)),
   ("red alder", (-0.174882004, 0.009559391))]

/-- `calculate_biomass(tree_stats, species, volume_stats)`.  Missing species in
the density/crown/root tables silently default to zero (`dict.get` defaults);
the subscript `species_distribution[species]` raises `KeyError` when missing. -/
def calculate_biomass (tree_stats : StandStats) (species : String)
    (volume_stats : TariffResult) : Except String BiomassResult :=
  let nsg := (nominal_specific_gravity.lookup species).getD 0.0
  let stem_biomass := volume_stats.total_stem_volume * nsg
  let mean_dbh_trees := tree_stats.mean_dbh_trees
  let crown_biomass : ℝ :=
    if 7 ≤ mean_dbh_trees ∧ mean_dbh_trees ≤ 50 then
      let bp := (crown_biomass_coefficients_7_to_50.lookup species).getD (0, 0)
      bp.1 * mean_dbh_trees ^ bp.2
    else if 50 < mean_dbh_trees then
      let ab := (crown_biomass_coefficients_above_50.lookup species).getD (0, 0)
      ab.1 + (ab.2 * mean_dbh_trees)
    else 0
  let root_biomass : ℝ :=
    if mean_dbh_trees ≤ 30 then
      ((root_biomass_coefficients_8.lookup species).getD 0) * mean_dbh_trees ^ (2.5 : ℝ)
    else
      let ab := (root_biomass_coefficients_9.lookup species).getD (0, 0)
      ab.1 + (ab.2 * mean_dbh_trees)
  match tree_stats.species_distribution.lookup species with
  | none => .error "KeyError: species missing from species_distribution"
  | some cnt =>
    let num_trees : ℝ := (cnt.trees : ℝ)
    let total_stem_biomass := stem_biomass
    let total_crown_biomass := crown_biomass * num_trees
    let total_root_biomass := root_biomass * num_trees
    let total_AGB := total_stem_biomass + total_crown_biomass
    .ok { total_stem_biomass := total_stem_biomass
          total_crown_biomass := total_crown_biomass
          total_root_biomass := total_root_biomass
          total_AGB := total_AGB
          total_biomass := total_AGB + total_root_biomass }

end

/-- Python `str.lower()`, character by character.  (`String.toLower` denotes
the same function but is opaque to kernel reduction, so the embedding uses the
explicit character map.) -/
def pyLower (s : String) : String := ⟨s.data.map Char.toLower⟩

/-- The broadleaf category set of the carbon converter (a Python `set`;
only membership is used, so a list models it). -/
def broadleaves : List String := ["red alder", "beech", "oak"]

/-- The conifer category set of the carbon converter. -/
def conifers : List String :=
  ["western red cedar", "noble fir", "corsican pine", "norway spruce", "grand fir",
   "scots pine", "western hemlock", "douglas fir", "japanese larch", "lodgepole pine",
   "sitka spruce", "european larch"]

/-- Table 6.1.3: carbon content per broadleaf sapling stem, keyed by height
rounded to one decimal. -/
def broadleaf_carbon_content_per_stem : List (ℚ × ℚ) :=
  [(0.6, 0.0000182), (0.7, 0.0000250), (0.8, 0.0000328), (0.9, 0.0000418),
   (1.0, 0.0000519), (1.1, 0.0000631), (1.2, 0.0000754), (1.3, 0.0000889),
   (1.4, 0.0001036), (1.5, 0.0001194), (1.6, 0.0001365), (1.7, 0.0001547),
   (1.8, 0.0001742), (1.9, 0.0001949), (2.0, 0.0002168), (2.1, 0.0002400),
   (2.2, 0.0002645), (2.3, 0.0002903), (2.4, 0.0003174), (2.5, 0.0003459),
   (2.6, 0.0003757), (2.7, 0.0004069), (2.8, 0.0004395), (2.9, 0.0004736),
   (3.0, 0.0005090), (3.1, 0.0005460), (3.2, 0.0005845), (3.3, 0.0006245),
   (3.4, 0.0006661), (3.5, 0.0007093), (3.6, 0.0007541), (3.7, 0.0008006),
   (3.8, 0.0008488), (3.9, 0.0008987), (4.0, 0.0009504), (4.1, 0.0010039),
   (4.2, 0.0010593), (4.3, 0.0011166), (4.4, 0.0011759), (4.5, 0.0012372),
   (4.6, 0.0013005), (4.7, 0.0013660), (4.8, 0.0014336), (4.9, 0.0015034),
   (5.0, 0.0015756), (5.1, 0.0016501), (5.2, 0.0017270), (5.3, 0.0018065),
   (5.4, 0.0018885), (5.5, 0.0019732), (5.6, 0.0020606), (5.7, 0.0021509),
   (5.8, 0.0022440), (5.9, 0.0023402), (6.0, 0.0024396), (6.1, 0.0025421),
   (6.2, 0.0026480), (6.3, 0.0027574), (6.4, 0.0028703), (6.5, 0.0029870),
   (6.6, 0.0031076), (6.7, 0.0032321), (6.8, 0.0033608), (6.9, 0.0034939),
   (7.0, 0.0036315), (7.1, 0.0037737), (7.2, 0.0039209), (7.3, 0.0040731),
   (7.4, 0.0042307), (7.5, 0.0043939), (7.6, 0.0045628), (7.7, 0.0047378),
   (7.8, 0.0049192), (7.9, 0.0051072), (8.0, 0.0053023), (8.1, 0.0055046),
   (8.2, 0.0057147), (8.3, 0.0059328), (8.4, 0.0061594), (8.5, 0.0063951),
   (8.6, 0.0066401), (8.7, 0.0068952), (8.8, 0.0071608), (8.9, 0.0074375),
   (9.0, 0.0077260), (9.1, 0.0080271), (9.2, 0.0083414), (9.3, 0.0086699),
   (9.4, 0.0090134), (9.5, 0.0093730), (9.6, 0.0097496), (9.7, 0.0101445),
   (9.8, 0.0105590), (9.9, 0.0109945), (10.0, 0.0114525)]

/-- Table 6.1.4: carbon content per conifer sapling stem, keyed by height
rounded to the nearest integer (against decimal table keys). -/
def conifer_carbon_content_per_stem : List (ℚ × ℚ) :=
  [(0.6, 0.0000222), (0.7, 0.0000304), (0.8, 0.0000400), (0.9, 0.0000509),
   (1.0, 0.0000631), (1.1, 0.0000767), (1.2, 0.0000916), (1.3, 0.0001080),
   (1.4, 0.0001257), (1.5, 0.0001449), (1.6, 0.0001655), (1.7, 0.0001876),
   (1.8, 0.0002111), (1.9, 0.0002361), (2.0, 0.0002626), (2.1, 0.0002906),
   (2.2, 0.0003202), (2.3, 0.0003513), (2.4, 0.0003840), (2.5, 0.0004184),
   (2.6, 0.0004543), (2.7, 0.0004920), (2.8, 0.0005313), (2.9, 0.0005724),
   (3.0, 0.0006152), (3.1, 0.0006598), (3.2, 0.0007062), (3.3, 0.0007545),
   (3.4, 0.0008046), (3.5, 0.0008567), (3.6, 0.0009108), (3.7, 0.0009669),
   (3.8, 0.0010250), (3.9, 0.0010853), (4.0, 0.0011477), (4.1, 0.0012123),
   (4.2, 0.0012792), (4.3, 0.0013484), (4.4, 0.0014200), (4.5, 0.0014940),
   (4.6, 0.0015705), (4.7, 0.0016496), (4.8, 0.0017314), (4.9, 0.0018158),
   (5.0, 0.0019031), (5.1, 0.0019932), (5.2, 0.0020863), (5.3, 0.0021825),
   (5.4, 0.0022819), (5.5, 0.0023845), (5.6, 0.0024904), (5.7, 0.0025998),
   (5.8, 0.0027128), (5.9, 0.0028296), (6.0, 0.0029502), (6.1, 0.0030747),
   (6.2, 0.0032034), (6.3, 0.0033363), (6.4, 0.0034737), (6.5, 0.0036157),
   (6.6, 0.0037625), (6.7, 0.0039143), (6.8, 0.0040712), (6.9, 0.0042336),
   (7.0, 0.0044015), (7.1, 0.0045753), (7.2, 0.0047552), (7.3, 0.0049415),
   (7.4, 0.0051344), (7.5, 0.0053343), (7.6, 0.0055415), (7.7, 0.0057564),
   (7.8, 0.0059792), (7.9, 0.0062105), (8.0, 0.0064505), (8.1, 0.0066999),
   (8.2, 0.0069589), (8.3, 0.0072283), (8.4, 0.0075085), (8.5, 0.0078002),
   (8.6, 0.0081039), (8.7, 0.0084204), (8.8, 0.0087504), (8.9, 0.0090948),
   (9.0, 0.0094544), (9.1, 0.0098301), (9.2, 0.0102231), (9.3, 0.0106345),
   (9.4, 0.0110655), (9.5, 0.0115174), (9.6, 0.0119917), (9.7, 0.0124900),
   (9.8, 0.0130142), (9.9, 0.0135662), (10.0, 0.0141482)]

/-- `calculate_carbon_and_co2_for_trees_and_saplings(biomass_stats, species,
num_saplings, mean_sapling_height)`.  The species (lower-cased) must be in one
of the two category sets, else `ValueError`.  The sapling height is kept as an
exact rational (recall a Python float literal such as `3.45` denotes the
nearest IEEE-754 double, a dyadic rational); a height whose rounding misses the
table keys defaults to carbon content `0`. -/
noncomputable def calculate_carbon_and_co2_for_trees_and_saplings
    (biomass_stats : BiomassResult) (species : String) (num_saplings : ℤ)
    (mean_sapling_height : ℚ) : Except String CarbonResult :=
  let isBroadleafE : Except String Bool :=
    if broadleaves.contains (pyLower species) then .ok true
    else if conifers.contains (pyLower species) then .ok false
    else .error "ValueError: species not found in either broadleaf or conifer categories"
  match isBroadleafE with
  | .error e => .error e
  | .ok is_broadleaf =>
    let total_carbon_trees := biomass_stats.total_biomass * 0.5
    let total_co2_trees := total_carbon_trees * (44 / 12)
    let sapling_carbon_content : ℚ :=
      if is_broadleaf then
        (broadleaf_carbon_content_per_stem.lookup (pyRound1 mean_sapling_height)).getD 0
      else
        (conifer_carbon_content_per_stem.lookup ((pyRound0 mean_sapling_height : ℤ) : ℚ)).getD 0
    let total_carbon_saplings : ℝ := (sapling_carbon_content : ℝ) * (num_saplings : ℝ)
    let total_co2_saplings := total_carbon_saplings * (44 / 12)
    .ok { total_carbon_trees := total_carbon_trees
          total_co2_trees := total_co2_trees
          total_carbon_saplings := total_carbon_saplings
          total_co2_saplings := total_co2_saplings
          total_carbon := total_carbon_trees + total_carbon_saplings
          total_co2 := total_co2_trees + total_co2_saplings }

/-! ### Concrete inputs used by witnesses and counterexamples -/

/-- The synthetic stratum of the round-trip scenario: DBH `[5, 8, 60]`,
heights `[2, 10, 25]`, planting mix `"Mixed Wood"`, year 1. -/
def scenarioDf : List InventoryRow :=
  [⟨"Mixed Wood", 1, 5, 2⟩, ⟨"Mixed Wood", 1, 8, 10⟩, ⟨"Mixed Wood", 1, 60, 25⟩]

/-- A stratum with two trees of DBH 7.7 cm and 8.38 cm. -/
def qmdDf : List InventoryRow :=
  [⟨"x", 1, 77/10, 10⟩, ⟨"x", 1, 419/50, 10⟩]

/-- A one-tree stratum (DBH 8 cm). -/
def oneTreeDf : List InventoryRow := [⟨"x", 1, 8, 10⟩]

/-- The exact rational value of the IEEE-754 double denoted by the Python
float literal `3.45` (it is slightly above 69/20). -/
def float345 : ℚ := 3884354678607053 / 1125899906842624

noncomputable section

/-- A stand-statistics record whose distribution holds one Scots pine tree. -/
def wStatsScots : StandStats := ⟨10, 10, 0, 10, [("Scots pine", ⟨1, 0, 0⟩)]⟩

/-- A stand-statistics record whose distribution holds two oak trees. -/
def wStatsOak : StandStats := ⟨10, 10, 0, 10, [("oak", ⟨2, 0, 0⟩)]⟩

/-- A stand-statistics record whose distribution holds only `"oak"` (used to
exhibit the `KeyError` on a species missing from the distribution). -/
def wStatsOakOnly : StandStats := ⟨10, 10, 0, 10, [("oak", ⟨1, 0, 0⟩)]⟩

/-- A stand-statistics record whose distribution holds three beech trees. -/
def wStatsBeech : StandStats := ⟨10, 10, 0, 10, [("beech", ⟨3, 0, 0⟩)]⟩

/-- A stand-statistics record whose distribution holds one sycamore tree. -/
def wStatsSycamore : StandStats := ⟨10, 10, 0, 10, [("sycamore", ⟨1, 0, 0⟩)]⟩

/-- An all-zero volume result. -/
def wVol : TariffResult := ⟨0, 0, 0⟩

/-- A biomass result with total biomass 2 (other fields zero). -/
def wBiomass : BiomassResult := ⟨0, 0, 0, 0, 2⟩

/-- `multiplication_factor` restricted to an integer argument (each branch
condition `k ≤ d` has an integer threshold `k`, so the factor only depends on
`⌊d⌋`). -/
def mfInt (n : ℤ) : ℝ :=
  if 33 ≤ n then 1.00
  else if 32 ≤ n then 1.01
  else if 31 ≤ n then 1.01
  else if 30 ≤ n then 1.01
  else if 29 ≤ n then 1.01
  else if 28 ≤ n then 1.01
  else if 27 ≤ n then 1.01
  else if 26 ≤ n then 1.01
  else if 25 ≤ n then 1.01
  else if 24 ≤ n then 1.01
  else if 23 ≤ n then 1.01
  else if 22 ≤ n then 1.01
  else if 21 ≤ n then 1.02
  else if 20 ≤ n then 1.02
  else if 19 ≤ n then 1.02
  else if 18 ≤ n then 1.02
  else if 17 ≤ n then 1.03
  else if 16 ≤ n then 1.03
  else if 15 ≤ n then 1.04
  else if 14 ≤ n then 1.05
  else if 13 ≤ n then 1.06
  else if 12 ≤ n then 1.07
  else if 11 ≤ n then 1.09
  else if 10 ≤ n then 1.12
  else if 9 ≤ n then 1.15
  else if 8 ≤ n then 1.19
  else 1.30

end

/-! ### Lemmas about the remainder-distribution allocation -/

theorem bump_length (l : List ℤ) (i : ℕ) : (bump l i).length = l.length := by
  induction l generalizing i with
  | nil => rfl
  | cons a t ih =>
    cases i with
    | zero => rfl
    | succ j => simp [bump, ih]

theorem bump_sum (l : List ℤ) (i : ℕ) (h : i < l.length) :
    (bump l i).sum = l.sum + 1 := by
  induction l generalizing i with
  | nil => simp at h
  | cons a t ih =>
    cases i with
    | zero => simp [bump]; ring
    | succ j =>
      simp only [bump, List.sum_cons]
      rw [ih j (by simpa using h)]
      ring

theorem distributeLoop_length (c : List ℤ) (r idx : ℕ) :
    (distributeLoop c r idx).length = c.length := by
  induction r generalizing c idx with
  | zero => rfl
  | succ r ih => simp [distributeLoop, ih, bump_length]

theorem distributeLoop_sum (c : List ℤ) (r idx : ℕ) (hc : c ≠ []) :
    (distributeLoop c r idx).sum = c.sum + r := by
  induction r generalizing c idx with
  | zero => simp [distributeLoop]
  | succ r ih =>
    have hlen : 0 < c.length := List.length_pos.mpr hc
    have hmod : idx % c.length < c.length := Nat.mod_lt _ hlen
    rw [distributeLoop, ih _ _ (by
      have := bump_length c (idx % c.length)
      intro hnil
      rw [hnil] at this
      simp at this
      omega)]
    rw [bump_sum _ _ hmod]
    push_cast
    ring

theorem init_alloc_sum_le (percentages : List (String × ℚ)) (n : ℕ)
    (hpos : ∀ x ∈ percentages, 0 ≤ x.2) :
    (((percentages.map fun sp => pyInt ((n : ℚ) * sp.2)).sum : ℤ) : ℚ) ≤
      (n : ℚ) * (percentages.map fun x => x.2).sum := by
  induction percentages with
  | nil => simp
  | cons a t ih =>
    simp only [List.map_cons, List.sum_cons, Int.cast_add, mul_add]
    have h0 : (0 : ℚ) ≤ (n : ℚ) * a.2 :=
      mul_nonneg (by positivity) (hpos a (by simp))
    have h1 : ((pyInt ((n : ℚ) * a.2) : ℤ) : ℚ) ≤ (n : ℚ) * a.2 := by
      rw [pyInt, if_pos h0]
      exact Int.floor_le _
    have h2 := ih fun x hx => hpos x (List.mem_cons_of_mem _ hx)
    linarith

theorem allocateClass_length (percentages : List (String × ℚ)) (n : ℕ) :
    (allocateClass percentages n).length = percentages.length := by
  rw [allocateClass, distributeLoop_length, List.length_map]

theorem allocateClass_sum (percentages : List (String × ℚ)) (n : ℕ)
    (hne : percentages ≠ []) (hpos : ∀ x ∈ percentages, 0 ≤ x.2)
    (hsum : (percentages.map fun x => x.2).sum ≤ 1) :
    (allocateClass percentages n).sum = (n : ℤ) := by
  have hinit : (((percentages.map fun sp => pyInt ((n : ℚ) * sp.2)).sum : ℤ) : ℚ) ≤ (n : ℚ) := by
    calc (((percentages.map fun sp => pyInt ((n : ℚ) * sp.2)).sum : ℤ) : ℚ)
        ≤ (n : ℚ) * (percentages.map fun x => x.2).sum := init_alloc_sum_le _ _ hpos
      _ ≤ (n : ℚ) * 1 := by
          apply mul_le_mul_of_nonneg_left hsum (by positivity)
      _ = (n : ℚ) := mul_one _
  have hinit' : (percentages.map fun sp => pyInt ((n : ℚ) * sp.2)).sum ≤ (n : ℤ) := by
    exact_mod_cast hinit
  have hmapne : percentages.map (fun sp => pyInt ((n : ℚ) * sp.2)) ≠ [] := by
    simpa using hne
  rw [allocateClass, distributeLoop_sum _ _ _ hmapne,
    Int.toNat_of_nonneg (by omega)]
  ring

theorem buildDist_proj (ps : List (String × ℚ)) (a b c : List ℤ)
    (ha : a.length = ps.length) (hb : b.length = ps.length) (hc : c.length = ps.length) :
    ((buildDist ps a b c).map fun x => x.2.trees) = a ∧
    ((buildDist ps a b c).map fun x => x.2.saplings) = b ∧
    ((buildDist ps a b c).map fun x => x.2.largetrees) = c := by
  induction ps generalizing a b c with
  | nil =>
    cases a with
    | nil =>
      cases b with
      | nil =>
        cases c with
        | nil => exact ⟨rfl, rfl, rfl⟩
        | cons x xs => simp at hc
      | cons x xs => simp at hb
    | cons x xs => simp at ha
  | cons p ps ih =>
    cases a with
    | nil => simp at ha
    | cons a0 at' =>
      cases b with
      | nil => simp at hb
      | cons b0 bt =>
        cases c with
        | nil => simp at hc
        | cons c0 ct =>
          obtain ⟨h1, h2, h3⟩ := ih at' bt ct (by simpa using ha) (by simpa using hb)
            (by simpa using hc)
          exact ⟨by simp [buildDist, h1], by simp [buildDist, h2], by simp [buildDist, h3]⟩

/-! ### Quadratic mean versus arithmetic mean -/

theorem sum_sq_nonneg (l : List ℚ) : 0 ≤ (l.map fun x => x ^ 2).sum := by
  induction l with
  | nil => simp
  | cons a t ih => simp only [List.map_cons, List.sum_cons]; positivity

theorem sq_sum_le_length_mul_sum_sq (l : List ℚ) :
    l.sum ^ 2 ≤ (l.length : ℚ) * (l.map fun x => x ^ 2).sum := by
  induction l with
  | nil => simp
  | cons a t ih =>
    rcases eq_or_ne t [] with rfl | hne
    · simp
    · have hn : (0 : ℚ) < (t.length : ℚ) := by
        exact_mod_cast List.length_pos.mpr hne
      simp only [List.sum_cons, List.map_cons, List.length_cons]
      push_cast
      have hq := sum_sq_nonneg t
      have key : (t.length : ℚ) *
          (((t.length : ℚ) + 1) * (a ^ 2 + (t.map fun x => x ^ 2).sum) - (a + t.sum) ^ 2) =
          ((t.length : ℚ) * a - t.sum) ^ 2 +
            (1 + (t.length : ℚ)) * ((t.length : ℚ) * (t.map fun x => x ^ 2).sum - t.sum ^ 2) := by
        ring
      have h5 : 0 ≤ (t.length : ℚ) *
          (((t.length : ℚ) + 1) * (a ^ 2 + (t.map fun x => x ^ 2).sum) - (a + t.sum) ^ 2) := by
        rw [key]
        have h6 : 0 ≤ (t.length : ℚ) * (t.map fun x => x ^ 2).sum - t.sum ^ 2 := by
          linarith
        have h7 : 0 ≤ ((t.length : ℚ) * a - t.sum) ^ 2 := sq_nonneg _
        nlinarith
      nlinarith

theorem listMean_sq_le_mean_sq (l : List ℚ) (h : l ≠ []) :
    (listMean l) ^ 2 ≤ listMean (l.map fun x => x ^ 2) := by
  have hn : (0 : ℚ) < (l.length : ℚ) := by
    have := List.length_pos.mpr h
    exact_mod_cast this
  rw [listMean, listMean, div_pow, List.length_map]
  rw [div_le_div_iff₀ (by positivity) hn]
  have := sq_sum_le_length_mul_sum_sq l
  calc l.sum ^ 2 * (l.length : ℚ)
      ≤ ((l.length : ℚ) * (l.map fun x => x ^ 2).sum) * (l.length : ℚ) := by
        apply mul_le_mul_of_nonneg_right this (le_of_lt hn)
    _ = (l.map fun x => x ^ 2).sum * (l.length : ℚ) ^ 2 := by ring

theorem listMean_le_sqrt_mean_sq (l : List ℚ) (h : l ≠ []) :
    ((listMean l : ℚ) : ℝ) ≤ Real.sqrt ((listMean (l.map fun x => x ^ 2) : ℚ) : ℝ) := by
  have h1 : ((listMean l : ℚ) : ℝ) ≤ |((listMean l : ℚ) : ℝ)| := le_abs_self _
  have h2 : |((listMean l : ℚ) : ℝ)| = Real.sqrt (((listMean l : ℚ) : ℝ) ^ 2) :=
    (Real.sqrt_sq_eq_abs _).symm
  have h3 : (((listMean l) ^ 2 : ℚ) : ℝ) ≤ ((listMean (l.map fun x => x ^ 2) : ℚ) : ℝ) := by
    exact_mod_cast listMean_sq_le_mean_sq l h
  calc ((listMean l : ℚ) : ℝ) ≤ Real.sqrt (((listMean l : ℚ) : ℝ) ^ 2) := by rw [← h2]; exact h1
    _ ≤ Real.sqrt ((listMean (l.map fun x => x ^ 2) : ℚ) : ℝ) := by
        apply Real.sqrt_le_sqrt
        push_cast at h3 ⊢
        exact h3

/-! ### The volume correction factor as a step function of the floor -/

theorem multiplication_factor_eq_mfInt (d : ℝ) :
    multiplication_factor d = mfInt ⌊d⌋ := by
  simp only [multiplication_factor, mfInt, Int.le_floor]
  push_cast
  rfl

set_option maxHeartbeats 1000000 in
theorem mfInt_low (n : ℤ) (h : n ≤ 7) : mfInt n = 1.30 := by
  rw [mfInt]
  repeat rw [if_neg (by omega)]

set_option maxHeartbeats 1000000 in
theorem mfInt_succ_le (n : ℤ) : mfInt (n + 1) ≤ mfInt n := by
  rcases le_or_lt 33 n with h33 | h33
  · rw [mfInt, if_pos (show (33:ℤ) ≤ n + 1 by omega), mfInt, if_pos h33]
  rcases le_or_lt n 6 with h6 | h6
  · rw [mfInt_low n (by omega), mfInt_low (n + 1) (by omega)]
  · have h7 : 7 ≤ n := by omega
    have h32 : n ≤ 32 := by omega
    interval_cases n <;> norm_num [mfInt]

theorem mfInt_antitone {m n : ℤ} (h : m ≤ n) : mfInt n ≤ mfInt m := by
  exact @Int.le_induction (fun k => mfInt k ≤ mfInt m) m (le_refl _)
    (fun k _ ih => le_trans (mfInt_succ_le k) ih) n h

/-! ### Projection lemmas for `tree_statistics` -/

theorem tree_statistics_number_of_trees (df : List InventoryRow)
    (p : List (String × ℚ)) (m : String) (y : ℤ) :
    (tree_statistics df p m y).number_of_trees = (filtered_df_trees df m y).length := rfl

theorem tree_statistics_number_of_saplings (df : List InventoryRow)
    (p : List (String × ℚ)) (m : String) (y : ℤ) :
    (tree_statistics df p m y).number_of_saplings = (filtered_df_saplings df m y).length := rfl

theorem tree_statistics_number_of_largetrees (df : List InventoryRow)
    (p : List (String × ℚ)) (m : String) (y : ℤ) :
    (tree_statistics df p m y).number_of_largetrees = (filtered_df_largetrees df m y).length := rfl

theorem tree_statistics_species_distribution (df : List InventoryRow)
    (p : List (String × ℚ)) (m : String) (y : ℤ) :
    (tree_statistics df p m y).species_distribution =
      buildDist p (allocateClass p (filtered_df_trees df m y).length)
        (allocateClass p (filtered_df_saplings df m y).length)
        (allocateClass p (filtered_df_largetrees df m y).length) := rfl

theorem tree_statistics_mean_dbh_trees (df : List InventoryRow)
    (p : List (String × ℚ)) (m : String) (y : ℤ) :
    (tree_statistics df p m y).mean_dbh_trees =
      listMean ((filtered_df_trees df m y).map fun r => r.DBH) := rfl

theorem tree_statistics_quadratic_mean_dbh (df : List InventoryRow)
    (p : List (String × ℚ)) (m : String) (y : ℤ) :
    (tree_statistics df p m y).quadratic_mean_dbh =
      roundSqrtTenth (mean_squared_dbh df m y) := rfl

/-! ### Claim theorems -/

/-- C1, counterexample: with percentages `{oak: 1.0, ash: 1.0}` (each
proportion in `[0,1]`) and one tree, each species is allocated
`int(1 * 1.0) = 1` tree, the remainder `1 - 2` is negative so no distribution
loop runs, and the per-species tree counts sum to `2 ≠ 1`. -/
theorem c1_counterexample :
    ¬ (((tree_statistics oneTreeDf [("oak", 1), ("ash", 1)] "x" 1).species_distribution.map
        fun x => x.2.trees).sum =
      ((tree_statistics oneTreeDf [("oak", 1), ("ash", 1)] "x" 1).number_of_trees : ℤ)) := by
  rw [tree_statistics_species_distribution, tree_statistics_number_of_trees]
  have hf : filtered_df_trees oneTreeDf "x" 1 = [⟨"x", 1, 8, 10⟩] := by
    simp only [oneTreeDf, filtered_df_trees, List.filter_cons, List.filter_nil]
    norm_num
  have hfs : filtered_df_saplings oneTreeDf "x" 1 = [] := by
    simp only [oneTreeDf, filtered_df_saplings, List.filter_cons, List.filter_nil]
    norm_num
  have hfl : filtered_df_largetrees oneTreeDf "x" 1 = [] := by
    simp only [oneTreeDf, filtered_df_largetrees, List.filter_cons, List.filter_nil]
    norm_num
  rw [hf, hfs, hfl]
  simp only [List.length_singleton, List.length_nil]
  have ha1 : allocateClass [("oak", 1), ("ash", 1)] 1 = [1, 1] := by
    simp only [allocateClass, List.map_cons, List.map_nil]
    norm_num [pyInt, List.sum_cons, List.sum_nil]
    decide
  have ha0 : allocateClass [("oak", (1:ℚ)), ("ash", 1)] 0 = [0, 0] := by
    simp only [allocateClass, List.map_cons, List.map_nil]
    norm_num [pyInt, List.sum_cons, List.sum_nil]
    decide
  rw [ha1, ha0]
  decide

/-- C1, amended: when the proportions are nonnegative and sum to at most 1 and
the percentages mapping is non-empty, the per-species counts produced by
`tree_statistics` sum exactly to each class total. -/
theorem c1_allocation_sums_exactly (df : List InventoryRow)
    (percentages : List (String × ℚ)) (m : String) (y : ℤ)
    (hne : percentages ≠ [])
    (hpos : ∀ x ∈ percentages, 0 ≤ x.2)
    (hsum : (percentages.map fun x => x.2).sum ≤ 1) :
    (((tree_statistics df percentages m y).species_distribution.map fun x => x.2.trees).sum =
        ((tree_statistics df percentages m y).number_of_trees : ℤ)) ∧
    (((tree_statistics df percentages m y).species_distribution.map fun x => x.2.saplings).sum =
        ((tree_statistics df percentages m y).number_of_saplings : ℤ)) ∧
    (((tree_statistics df percentages m y).species_distribution.map fun x => x.2.largetrees).sum =
        ((tree_statistics df percentages m y).number_of_largetrees : ℤ)) := by
  rw [tree_statistics_species_distribution, tree_statistics_number_of_trees,
    tree_statistics_number_of_saplings, tree_statistics_number_of_largetrees]
  obtain ⟨h1, h2, h3⟩ := buildDist_proj percentages
    (allocateClass percentages (filtered_df_trees df m y).length)
    (allocateClass percentages (filtered_df_saplings df m y).length)
    (allocateClass percentages (filtered_df_largetrees df m y).length)
    (allocateClass_length _ _) (allocateClass_length _ _) (allocateClass_length _ _)
  rw [h1, h2, h3]
  exact ⟨allocateClass_sum _ _ hne hpos hsum, allocateClass_sum _ _ hne hpos hsum,
    allocateClass_sum _ _ hne hpos hsum⟩

/-- C1 witness: the amended claim applied to the synthetic stratum. -/
theorem c1_allocation_sums_exactly_witness :
    ([("oak", (1 : ℚ))] ≠ []) ∧
    (((tree_statistics scenarioDf [("oak", 1)] "Mixed Wood" 1).species_distribution.map
        fun x => x.2.trees).sum =
      ((tree_statistics scenarioDf [("oak", 1)] "Mixed Wood" 1).number_of_trees : ℤ)) :=
  ⟨by simp, (c1_allocation_sums_exactly scenarioDf [("oak", 1)] "Mixed Wood" 1 (by simp)
    (by intro x hx; simp at hx; rw [hx]; norm_num) (by norm_num)).1⟩

/-- C2, counterexample: for trees of DBH 7.7 cm and 8.38 cm the quadratic mean
DBH is `sqrt(64.7572) = 8.047...`, which rounds to `8.0`, strictly below the
arithmetic mean DBH `8.04`. -/
theorem c2_counterexample :
    (tree_statistics qmdDf [("oak", 1)] "x" 1).quadratic_mean_dbh <
      (tree_statistics qmdDf [("oak", 1)] "x" 1).mean_dbh_trees := by
  rw [tree_statistics_quadratic_mean_dbh, tree_statistics_mean_dbh_trees]
  have ht : filtered_df_trees qmdDf "x" 1 = [⟨"x", 1, 77/10, 10⟩, ⟨"x", 1, 419/50, 10⟩] := by
    simp only [qmdDf, filtered_df_trees, List.filter_cons, List.filter_nil]
    norm_num
  have hmsq : mean_squared_dbh qmdDf "x" 1 = 161893/2500 := by
    rw [mean_squared_dbh, ht]
    norm_num [listMean]
  have hsqrt : Nat.sqrt 25902 = 160 := by
    symm
    rw [Nat.eq_sqrt']
    norm_num
  have htn : Int.toNat 25902 = 25902 := rfl
  have hq : roundSqrtTenth (161893/2500) = 8 := by
    rw [roundSqrtTenth]
    norm_num [htn, hsqrt]
  rw [hmsq, hq, ht]
  norm_num [listMean]

/-- C2, amended: for a non-empty tree class, the quadratic mean DBH before the
one-decimal rounding — `sqrt` of the mean squared DBH — is at least the
arithmetic mean DBH (Jensen). -/
theorem c2_qmd_ge_arithmetic_mean (df : List InventoryRow)
    (percentages : List (String × ℚ)) (m : String) (y : ℤ)
    (h : filtered_df_trees df m y ≠ []) :
    (((tree_statistics df percentages m y).mean_dbh_trees : ℚ) : ℝ) ≤
      Real.sqrt ((mean_squared_dbh df m y : ℚ) : ℝ) := by
  rw [tree_statistics_mean_dbh_trees, mean_squared_dbh]
  have hne : (filtered_df_trees df m y).map (fun r => r.DBH) ≠ [] := by
    simpa using h
  have key := listMean_le_sqrt_mean_sq ((filtered_df_trees df m y).map fun r => r.DBH) hne
  simpa [List.map_map, Function.comp] using key

/-- C2 witness: the amended claim applied to the synthetic stratum. -/
theorem c2_qmd_ge_arithmetic_mean_witness :
    (filtered_df_trees scenarioDf "Mixed Wood" 1 ≠ []) ∧
    (((tree_statistics scenarioDf [("oak", 1)] "Mixed Wood" 1).mean_dbh_trees : ℚ) : ℝ) ≤
      Real.sqrt ((mean_squared_dbh scenarioDf "Mixed Wood" 1 : ℚ) : ℝ) := by
  have h : filtered_df_trees scenarioDf "Mixed Wood" 1 ≠ [] := by
    simp only [scenarioDf, filtered_df_trees, List.filter_cons, List.filter_nil]
    norm_num
    simp
  exact ⟨h, c2_qmd_ge_arithmetic_mean scenarioDf [("oak", 1)] "Mixed Wood" 1 h⟩

/-- C8: on the synthetic stratum with DBH `[5, 8, 60]` and heights
`[2, 10, 25]`, `tree_statistics` classifies by the thresholds (saplings
`DBH <= 7`, trees `DBH > 7`, large trees `DBH > 50` — a subset of the trees)
and reports sapling count 1, tree count 2, large-tree count 1, with all
classes allocated to `"oak"`. -/
theorem c8_roundtrip_scenario :
    filtered_df_saplings scenarioDf "Mixed Wood" 1 = [⟨"Mixed Wood", 1, 5, 2⟩] ∧
    filtered_df_trees scenarioDf "Mixed Wood" 1 =
      [⟨"Mixed Wood", 1, 8, 10⟩, ⟨"Mixed Wood", 1, 60, 25⟩] ∧
    filtered_df_largetrees scenarioDf "Mixed Wood" 1 = [⟨"Mixed Wood", 1, 60, 25⟩] ∧
    (tree_statistics scenarioDf [("oak", 1)] "Mixed Wood" 1).number_of_saplings = 1 ∧
    (tree_statistics scenarioDf [("oak", 1)] "Mixed Wood" 1).number_of_trees = 2 ∧
    (tree_statistics scenarioDf [("oak", 1)] "Mixed Wood" 1).number_of_largetrees = 1 ∧
    (tree_statistics scenarioDf [("oak", 1)] "Mixed Wood" 1).species_distribution =
      [("oak", ⟨2, 1, 1⟩)] := by
  have hs : filtered_df_saplings scenarioDf "Mixed Wood" 1 = [⟨"Mixed Wood", 1, 5, 2⟩] := by
    simp only [scenarioDf, filtered_df_saplings, List.filter_cons, List.filter_nil]
    norm_num
  have ht : filtered_df_trees scenarioDf "Mixed Wood" 1 =
      [⟨"Mixed Wood", 1, 8, 10⟩, ⟨"Mixed Wood", 1, 60, 25⟩] := by
    simp only [scenarioDf, filtered_df_trees, List.filter_cons, List.filter_nil]
    norm_num
  have hl : filtered_df_largetrees scenarioDf "Mixed Wood" 1 = [⟨"Mixed Wood", 1, 60, 25⟩] := by
    simp only [scenarioDf, filtered_df_largetrees, List.filter_cons, List.filter_nil]
    norm_num
  have ha2 : allocateClass [("oak", 1)] 2 = [2] := by
    simp only [allocateClass, List.map_cons, List.map_nil]
    norm_num [pyInt, List.sum_cons, List.sum_nil]
    decide
  have ha1 : allocateClass [("oak", 1)] 1 = [1] := by
    simp only [allocateClass, List.map_cons, List.map_nil]
    norm_num [pyInt, List.sum_cons, List.sum_nil]
    decide
  refine ⟨hs, ht, hl, ?_, ?_, ?_, ?_⟩
  · rw [tree_statistics_number_of_saplings, hs]
    rfl
  · rw [tree_statistics_number_of_trees, ht]
    rfl
  · rw [tree_statistics_number_of_largetrees, hl]
    rfl
  · rw [tree_statistics_species_distribution, hs, ht, hl]
    simp only [List.length_cons, List.length_nil, List.length_singleton]
    rw [ha2, ha1]
    rfl


/-! ### Ok-shape of the tariff function (shared helper) -/

theorem tariff_ok (stats : StandStats) (species : String) (cnt : SpeciesCounts)
    (hd : stats.species_distribution.lookup species = some cnt)
    (htab : (conifer_constants.lookup species).isSome ∨
      (broadleaf_constants.lookup species).isSome) :
    ∃ r, calculate_tariff_numbers_and_volume stats species = Except.ok r ∧
      r.total_stem_volume =
        (r.mean_tree_volume * (cnt.trees : ℝ)) * multiplication_factor stats.mean_dbh_trees := by
  rcases hc : conifer_constants.lookup species with _ | ⟨⟨a1, a2, a3⟩⟩
  · rcases hb : broadleaf_constants.lookup species with _ | ⟨⟨b1, b2, b3, b4⟩⟩
    · rw [hc, hb] at htab
      simp at htab
    · simp only [calculate_tariff_numbers_and_volume, hc, hb, hd]
      exact ⟨_, rfl, rfl⟩
  · simp only [calculate_tariff_numbers_and_volume, hc, hd]
    exact ⟨_, rfl, rfl⟩

/-- C3: tariff-number formulas. -/
theorem c3_tariff_number_formula :
    (∀ (stats : StandStats) (species : String) (a1 a2 a3 : ℝ) (cnt : SpeciesCounts),
      conifer_constants.lookup species = some (a1, a2, a3) →
      stats.species_distribution.lookup species = some cnt →
      ∃ r, calculate_tariff_numbers_and_volume stats species = Except.ok r ∧
        r.tariff_number =
          ⌊a1 + (a2 * stats.mean_tree_height) + (a3 * stats.mean_dbh_trees)⌋) ∧
    (∀ (stats : StandStats) (species : String) (a1 a2 a3 a4 : ℝ) (cnt : SpeciesCounts),
      conifer_constants.lookup species = none →
      broadleaf_constants.lookup species = some (a1, a2, a3, a4) →
      stats.species_distribution.lookup species = some cnt →
      ∃ r, calculate_tariff_numbers_and_volume stats species = Except.ok r ∧
        r.tariff_number =
          ⌊a1 + (a2 * stats.mean_tree_height) + (a3 * stats.mean_dbh_trees) +
            (a4 * stats.mean_dbh_trees * stats.mean_tree_height)⌋) := by
  constructor
  · intro stats species a1 a2 a3 cnt hc hd
    simp only [calculate_tariff_numbers_and_volume, hc, hd]
    exact ⟨_, rfl, rfl⟩
  · intro stats species a1 a2 a3 a4 cnt hc hb hd
    simp only [calculate_tariff_numbers_and_volume, hc, hb, hd]
    exact ⟨_, rfl, rfl⟩

/-- C3 witness. -/
theorem c3_tariff_number_formula_witness :
    (∃ r, calculate_tariff_numbers_and_volume wStatsScots "Scots pine" = Except.ok r ∧
      r.tariff_number =
        ⌊(9.817387 : ℝ) + ((1.177486 : ℝ) * wStatsScots.mean_tree_height) +
          ((-0.114174 : ℝ) * wStatsScots.mean_dbh_trees)⌋) ∧
    (∃ r, calculate_tariff_numbers_and_volume wStatsOak "oak" = Except.ok r ∧
      r.tariff_number =
        ⌊(5.88300 : ℝ) + ((2.01230 : ℝ) * wStatsOak.mean_tree_height) +
          ((-0.0054780 : ℝ) * wStatsOak.mean_dbh_trees) +
          ((-0.0057397 : ℝ) * wStatsOak.mean_dbh_trees * wStatsOak.mean_tree_height)⌋) :=
  ⟨c3_tariff_number_formula.1 wStatsScots "Scots pine" _ _ _ ⟨1, 0, 0⟩ rfl rfl,
   c3_tariff_number_formula.2 wStatsOak "oak" _ _ _ _ ⟨2, 0, 0⟩ rfl rfl rfl⟩

/-- C4: correction factor monotone, endpoint values, and use in the result. -/
theorem c4_correction_factor :
    (∀ d1 d2 : ℝ, d1 ≤ d2 → multiplication_factor d2 ≤ multiplication_factor d1) ∧
    multiplication_factor 7 = 1.30 ∧
    (∀ d : ℝ, 33 ≤ d → multiplication_factor d = 1.00) ∧
    (∀ (stats : StandStats) (species : String) (cnt : SpeciesCounts),
      stats.species_distribution.lookup species = some cnt →
      ((conifer_constants.lookup species).isSome ∨
        (broadleaf_constants.lookup species).isSome) →
      ∃ r, calculate_tariff_numbers_and_volume stats species = Except.ok r ∧
        r.total_stem_volume =
          (r.mean_tree_volume * (cnt.trees : ℝ)) *
            multiplication_factor stats.mean_dbh_trees) := by
  refine ⟨?_, ?_, ?_, ?_⟩
  · intro d1 d2 h
    rw [multiplication_factor_eq_mfInt, multiplication_factor_eq_mfInt]
    exact mfInt_antitone (Int.floor_mono h)
  · rw [multiplication_factor]
    norm_num
  · intro d hd
    rw [multiplication_factor, if_pos hd]
  · exact tariff_ok

/-- C4 witness. -/
theorem c4_correction_factor_witness :
    multiplication_factor 9 ≤ multiplication_factor 8 ∧
    multiplication_factor 34 = 1.00 ∧
    (∃ r, calculate_tariff_numbers_and_volume wStatsScots "Scots pine" = Except.ok r ∧
      r.total_stem_volume =
        (r.mean_tree_volume * ((1 : ℤ) : ℝ)) * multiplication_factor wStatsScots.mean_dbh_trees) :=
  ⟨c4_correction_factor.1 8 9 (by norm_num),
   c4_correction_factor.2.2.1 34 (by norm_num),
   c4_correction_factor.2.2.2 wStatsScots "Scots pine" ⟨1, 0, 0⟩ rfl (Or.inl rfl)⟩

/-- C5, counterexample: `"beech"` is present in the broadleaf tariff table,
yet the call raises (KeyError) when the species is absent from the stand's
`species_distribution`. -/
theorem c5_counterexample :
    (broadleaf_constants.lookup "beech").isSome = true ∧
    ∃ msg, calculate_tariff_numbers_and_volume wStatsOakOnly "beech" = Except.error msg := by
  refine ⟨rfl, ?_⟩
  exact ⟨_, rfl⟩

/-- C5, amended. -/
theorem c5_missing_species_raises :
    (∀ (stats : StandStats) (species : String),
      conifer_constants.lookup species = none →
      broadleaf_constants.lookup species = none →
      ∃ msg, calculate_tariff_numbers_and_volume stats species = Except.error msg) ∧
    (∀ (stats : StandStats) (species : String) (cnt : SpeciesCounts),
      ((conifer_constants.lookup species).isSome ∨
        (broadleaf_constants.lookup species).isSome) →
      stats.species_distribution.lookup species = some cnt →
      ∃ r, calculate_tariff_numbers_and_volume stats species = Except.ok r) := by
  constructor
  · intro stats species hc hb
    simp only [calculate_tariff_numbers_and_volume, hc, hb]
    exact ⟨_, rfl⟩
  · intro stats species cnt htab hd
    obtain ⟨r, hr, _⟩ := tariff_ok stats species cnt hd htab
    exact ⟨r, hr⟩

/-- C5 witness. -/
theorem c5_missing_species_raises_witness :
    (∃ msg, calculate_tariff_numbers_and_volume wStatsOak "unknown_species" = Except.error msg) ∧
    (∃ r, calculate_tariff_numbers_and_volume wStatsOak "oak" = Except.ok r) :=
  ⟨c5_missing_species_raises.1 wStatsOak "unknown_species" rfl rfl,
   c5_missing_species_raises.2 wStatsOak "oak" ⟨2, 0, 0⟩ (Or.inr rfl) rfl⟩

/-- C6: exact carbon and CO2 conversion factors. -/
theorem c6_carbon_co2_factors (b : BiomassResult) (species : String) (n : ℤ) (h : ℚ)
    (hmem : broadleaves.contains (pyLower species) = true ∨
      conifers.contains (pyLower species) = true) :
    ∃ r, calculate_carbon_and_co2_for_trees_and_saplings b species n h = Except.ok r ∧
      r.total_carbon_trees = b.total_biomass * 0.5 ∧
      r.total_co2_trees = r.total_carbon_trees * (44 / 12) ∧
      r.total_co2_saplings = r.total_carbon_saplings * (44 / 12) := by
  rcases hb : broadleaves.contains (pyLower species) with _ | _
  · rcases hc : conifers.contains (pyLower species) with _ | _
    · rw [hb, hc] at hmem
      simp at hmem
    · simp only [calculate_carbon_and_co2_for_trees_and_saplings, hb, hc,
        Bool.false_eq_true, if_false, if_true]
      exact ⟨_, rfl, rfl, rfl, rfl⟩
  · simp only [calculate_carbon_and_co2_for_trees_and_saplings, hb, if_true]
    exact ⟨_, rfl, rfl, rfl, rfl⟩

/-- C6 witness. -/
theorem c6_carbon_co2_factors_witness :
    ∃ r, calculate_carbon_and_co2_for_trees_and_saplings wBiomass "oak" 3 1 = Except.ok r ∧
      r.total_carbon_trees = wBiomass.total_biomass * 0.5 ∧
      r.total_co2_trees = r.total_carbon_trees * (44 / 12) ∧
      r.total_co2_saplings = r.total_carbon_saplings * (44 / 12) :=
  c6_carbon_co2_factors wBiomass "oak" 3 1 (Or.inl rfl)

set_option maxRecDepth 4000 in
/-- C7: sapling-table rounding asymmetry at height `3.45` (the float value). -/
theorem c7_sapling_rounding_asymmetry :
    pyRound1 float345 = 3.5 ∧
    pyRound0 float345 = 3 ∧
    (∃ r, calculate_carbon_and_co2_for_trees_and_saplings wBiomass "oak" 1 float345 =
      Except.ok r ∧ r.total_carbon_saplings = ((0.0007093 : ℚ) : ℝ)) ∧
    (∃ r, calculate_carbon_and_co2_for_trees_and_saplings wBiomass "Scots pine" 1 float345 =
      Except.ok r ∧ r.total_carbon_saplings = ((0.0006152 : ℚ) : ℝ)) := by
  have hr1 : pyRound1 float345 = 7/2 := by
    norm_num [pyRound1, pyRound0, float345]
  have hr0 : pyRound0 float345 = 3 := by
    norm_num [pyRound0, float345]
  have hlB : broadleaf_carbon_content_per_stem.lookup (7/2 : ℚ) = some (7093/10000000) := by
    simp only [broadleaf_carbon_content_per_stem, List.lookup, beq_eq_decide]
    norm_num
  have hlC : conifer_carbon_content_per_stem.lookup ((3 : ℤ) : ℚ) = some (6152/10000000) := by
    simp only [conifer_carbon_content_per_stem, List.lookup, beq_eq_decide]
    norm_num
  refine ⟨by rw [hr1]; norm_num, hr0, ?_, ?_⟩
  · have hb : broadleaves.contains (pyLower "oak") = true := rfl
    simp only [calculate_carbon_and_co2_for_trees_and_saplings, hb, if_true, hr1, hlB,
      Option.getD_some]
    refine ⟨_, rfl, ?_⟩
    norm_num
  · have hb : broadleaves.contains (pyLower "Scots pine") = false := rfl
    have hc : conifers.contains (pyLower "Scots pine") = true := rfl
    simp only [calculate_carbon_and_co2_for_trees_and_saplings, hb, hc,
      Bool.false_eq_true, if_false, if_true, hr0, hlC, Option.getD_some]
    refine ⟨_, rfl, ?_⟩
    norm_num

/-- C9: lowercase `"beech"` misses both crown tables (keyed `"Beech"`), so the
crown biomass falls through to the `(0, 0)` default and is zero for any mean
DBH at least 7. -/
theorem c9_beech_crown_biomass_zero :
    crown_biomass_coefficients_7_to_50.lookup "beech" = none ∧
    crown_biomass_coefficients_above_50.lookup "beech" = none ∧
    ∀ (stats : StandStats) (cnt : SpeciesCounts) (vol : TariffResult),
      (7 : ℝ) ≤ stats.mean_dbh_trees →
      stats.species_distribution.lookup "beech" = some cnt →
      ∃ r, calculate_biomass stats "beech" vol = Except.ok r ∧
        r.total_crown_biomass = 0 := by
  refine ⟨rfl, rfl, ?_⟩
  intro stats cnt vol h7 hd
  simp only [calculate_biomass, hd]
  refine ⟨_, rfl, ?_⟩
  show (if (7 : ℝ) ≤ stats.mean_dbh_trees ∧ stats.mean_dbh_trees ≤ 50 then
      ((crown_biomass_coefficients_7_to_50.lookup "beech").getD (0, 0)).1 *
        stats.mean_dbh_trees ^ ((crown_biomass_coefficients_7_to_50.lookup "beech").getD (0, 0)).2
    else if (50 : ℝ) < stats.mean_dbh_trees then
      ((crown_biomass_coefficients_above_50.lookup "beech").getD (0, 0)).1 +
        (((crown_biomass_coefficients_above_50.lookup "beech").getD (0, 0)).2 *
          stats.mean_dbh_trees)
    else 0) * (cnt.trees : ℝ) = 0
  have e1 : crown_biomass_coefficients_7_to_50.lookup "beech" = none := rfl
  have e2 : crown_biomass_coefficients_above_50.lookup "beech" = none := rfl
  rw [e1, e2]
  split_ifs <;> norm_num

/-- C9 witness. -/
theorem c9_beech_crown_biomass_zero_witness :
    ∃ r, calculate_biomass wStatsBeech "beech" wVol = Except.ok r ∧
      r.total_crown_biomass = 0 :=
  c9_beech_crown_biomass_zero.2.2 wStatsBeech ⟨3, 0, 0⟩ wVol
    (by rw [show wStatsBeech.mean_dbh_trees = 10 from rfl]; norm_num) rfl

/-- C10: the five species accepted by the volume estimator but rejected by the
carbon converter. -/
theorem c10_pipeline_split (species : String)
    (hs : species ∈ ["sycamore", "ash", "birch", "elm", "poplar"]) :
    (broadleaf_constants.lookup species).isSome = true ∧
    (∀ (stats : StandStats) (cnt : SpeciesCounts),
      stats.species_distribution.lookup species = some cnt →
      ∃ r, calculate_tariff_numbers_and_volume stats species = Except.ok r) ∧
    (∀ (b : BiomassResult) (n : ℤ) (h : ℚ),
      ∃ msg, calculate_carbon_and_co2_for_trees_and_saplings b species n h =
        Except.error msg) := by
  have herr : ∀ (sp : String), broadleaves.contains (pyLower sp) = false →
      conifers.contains (pyLower sp) = false →
      ∀ (b : BiomassResult) (n : ℤ) (h : ℚ),
      ∃ msg, calculate_carbon_and_co2_for_trees_and_saplings b sp n h = Except.error msg := by
    intro sp hb hc b n h
    simp only [calculate_carbon_and_co2_for_trees_and_saplings, hb, hc,
      Bool.false_eq_true, if_false]
    exact ⟨_, rfl⟩
  fin_cases hs
  · exact ⟨rfl, fun stats cnt hd =>
      (tariff_ok stats _ cnt hd (Or.inr rfl)).elim fun r hr => ⟨r, hr.1⟩,
      herr _ rfl rfl⟩
  · exact ⟨rfl, fun stats cnt hd =>
      (tariff_ok stats _ cnt hd (Or.inr rfl)).elim fun r hr => ⟨r, hr.1⟩,
      herr _ rfl rfl⟩
  · exact ⟨rfl, fun stats cnt hd =>
      (tariff_ok stats _ cnt hd (Or.inr rfl)).elim fun r hr => ⟨r, hr.1⟩,
      herr _ rfl rfl⟩
  · exact ⟨rfl, fun stats cnt hd =>
      (tariff_ok stats _ cnt hd (Or.inr rfl)).elim fun r hr => ⟨r, hr.1⟩,
      herr _ rfl rfl⟩
  · exact ⟨rfl, fun stats cnt hd =>
      (tariff_ok stats _ cnt hd (Or.inr rfl)).elim fun r hr => ⟨r, hr.1⟩,
      herr _ rfl rfl⟩

/-- C10 witness. -/
theorem c10_pipeline_split_witness :
    (broadleaf_constants.lookup "sycamore").isSome = true ∧
    (∃ r, calculate_tariff_numbers_and_volume wStatsSycamore "sycamore" = Except.ok r) ∧
    (∃ msg, calculate_carbon_and_co2_for_trees_and_saplings wBiomass "sycamore" 2 3 =
      Except.error msg) :=
  have h := c10_pipeline_split "sycamore" (by simp)
  ⟨h.1, h.2.1 wStatsSycamore ⟨1, 0, 0⟩ rfl, h.2.2 wBiomass 2 3⟩

end WCC
